import Mathlib

/-!
Shallow embedding of `src/bot.py`: a Telegram bot that answers `/start` and
`/help` with fixed texts and reacts to "member left chat" updates by logging
the departure and attempting a farewell direct message to the departing user.

Handlers are modelled as pure functions producing a trace of observable
effects (log writes and outbound send attempts, in order).  The outcome of
the single outbound send (which in the source may raise, caught by
`except Exception`) is an explicit parameter; `datetime.now()` is an explicit
string parameter.  Module-level configuration loading and the startup mode
switch of `main` are modelled over the raw environment values as `Option
String`, with Python truthiness (`None` and `""` falsy) made explicit.
-/

/-- Severity of a log write (`logger.info` / `logger.error`). -/
inductive Level where
  | info
  | error
deriving DecidableEq

/-- One observable effect of a handler, in order of occurrence: a log write
or an outbound `send_message` attempt (target chat id and text). -/
inductive Event where
  | log (lv : Level) (text : String)
  | send (chat_id : Int) (text : String)
deriving DecidableEq

/-- A Telegram user as observed by the handlers: identifier, first name and
the platform-supplied display name (`full_name`). -/
structure User where
  id : Int
  first_name : String
  full_name : String
deriving DecidableEq

/-- A Telegram chat as observed by the handlers: identifier and title. -/
structure Chat where
  id : Int
  title : String
deriving DecidableEq

/-- The part of a Telegram message the departure handler inspects: the
optional `left_chat_member` field. -/
structure Message where
  left_chat_member : Option User
deriving DecidableEq

/-- One inbound update: an optional message and the effective chat. -/
structure Update where
  message : Option Message
  effective_chat : Chat
deriving DecidableEq

/-- Outcome of the one outbound send attempt: success, or a raised failure
carrying the exception text `{e}`. -/
inductive SendOutcome where
  | success
  | failure (e : String)
deriving DecidableEq

/-- Fixed reply text of the `/start` handler (bot.py lines 35-38). -/
def start_text : String :=
  "Hi! I\x27m a bot that tracks when users leave groups. " ++
  "Add me to a group and I\x27ll message users who leave."

/-- Fixed reply text of the `/help` handler (bot.py lines 42-47). -/
def help_text : String :=
  "Commands:\n" ++
  "/start - Start the bot\n" ++
  "/help - Show this help message\n\n" ++
  "Add me to a group and I\x27ll automatically message users who leave."

/-- A command update as the two command handlers see it: the chat the
command message came from (where `reply_text` sends its reply) and the raw
message text, which neither handler reads. -/
structure CommandUpdate where
  chat_id : Int
  text : String
deriving DecidableEq

/-- `start` handler (bot.py lines 33-38): one `reply_text` to the chat the
command came from, with fixed text. -/
def start (update : CommandUpdate) : List Event :=
  [Event.send update.chat_id start_text]

/-- `help_command` handler (bot.py lines 40-47): one `reply_text` to the
chat the command came from, with fixed text. -/
def help_command (update : CommandUpdate) : List Event :=
  [Event.send update.chat_id help_text]

/-- Farewell template of the departure handler (bot.py lines 70-72),
interpolating the departing user's first name and the chat's title. -/
def farewell_text (left_user : User) (chat : Chat) : String :=
  "Hi " ++ left_user.first_name ++ ", we noticed you left " ++ chat.title ++
  ". " ++ "We hope you enjoyed your time in the group! " ++
  "If you have any feedback, please let us know."

/-- Departure log line (bot.py lines 61-64). -/
def departure_log_text (left_user : User) (chat : Chat) (now : String) : String :=
  "User " ++ left_user.full_name ++ " (ID: " ++ toString left_user.id ++
  ") left " ++ "group " ++ chat.title ++ " (ID: " ++ toString chat.id ++
  ") at " ++ now

/-- Log line for the bot's own removal (bot.py line 57). -/
def bot_removed_log_text (chat : Chat) : String :=
  "Bot was removed from " ++ chat.title ++ " (" ++ toString chat.id ++ ")"

/-- Success confirmation log line (bot.py line 74). -/
def sent_log_text (left_user : User) : String :=
  "Sent farewell message to " ++ left_user.full_name ++ " (" ++
  toString left_user.id ++ ")"

/-- Error log line on send failure (bot.py line 77). -/
def send_error_log_text (left_user : User) (e : String) : String :=
  "Could not send message to " ++ left_user.full_name ++ ": " ++ e

/-- `handle_member_left` (bot.py lines 49-77).  `bot_id` is
`context.bot.id`, `now` the value of `datetime.now()` rendered into the
departure log, `outcome` what the single `send_message` call does.  The
guard `update.message and update.message.left_chat_member` is Python
truthiness on the two optional fields; the `try`/`except Exception` around
the send makes the handler total (no exception escapes). -/
def handle_member_left (bot_id : Int) (now : String) (outcome : SendOutcome)
    (update : Update) : List Event :=
  match update.message with
  | none => []
  | some msg =>
    match msg.left_chat_member with
    | none => []
    | some left_user =>
      let chat := update.effective_chat
      if left_user.id = bot_id then
        [Event.log Level.info (bot_removed_log_text chat)]
      else
        let dep := Event.log Level.info (departure_log_text left_user chat now)
        let att := Event.send left_user.id (farewell_text left_user chat)
        match outcome with
        | SendOutcome.success =>
            [dep, att, Event.log Level.info (sent_log_text left_user)]
        | SendOutcome.failure e =>
            [dep, att, Event.log Level.error (send_error_log_text left_user e)]

/-- Whether an event is an outbound send attempt. -/
def Event.isSend : Event → Bool
  | Event.send _ _ => true
  | Event.log _ _ => false

/-- Whether an event is a log write. -/
def Event.isLog : Event → Bool
  | Event.log _ _ => true
  | Event.send _ _ => false

/-- Whether an event is a log write at the given level. -/
def Event.isLogAt (lv : Level) : Event → Bool
  | Event.log l _ => l = lv
  | Event.send _ _ => false

/-- The log writes of a trace that occur before its first send attempt. -/
def logsBeforeFirstSend (tr : List Event) : List Event :=
  (tr.takeWhile (fun e => ! e.isSend)).filter Event.isLog

/-- Module-level configuration values (bot.py lines 25-31): `TOKEN`,
`PORT` (an integer after `int(...)`), `WEBHOOK_URL` (raw, possibly absent). -/
structure Config where
  TOKEN : String
  PORT : Int
  WEBHOOK_URL : Option String
deriving DecidableEq

/-- Value of a decimal digit character, when it is one. -/
def digit_val (c : Char) : Option Nat :=
  if c.isDigit then some (c.toNat - Char.toNat (Char.ofNat 48)) else none

/-- A non-empty all-digit character list read as a decimal natural. -/
def decimal_digits : List Char → Option Nat
  | [] => none
  | cs =>
    cs.foldl
      (fun acc c =>
        match acc, digit_val c with
        | some n, some d => some (n * 10 + d)
        | _, _ => none)
      (some 0)

/-- Python `int(s)` on an optionally signed decimal string (the whitespace
and underscore forms Python also accepts are not modelled; no claim depends
on them). -/
def py_int (s : String) : Option Int :=
  match s.data with
  | [] => none
  | c :: rest =>
    if c = Char.ofNat 45 then (decimal_digits rest).map (fun n => -(n : Int))
    else if c = Char.ofNat 43 then (decimal_digits rest).map (fun n => (n : Int))
    else (decimal_digits (c :: rest)).map (fun n => (n : Int))

/-- `int(s)` as an `Except`: the integer, or the `ValueError` text when `s`
is not a valid integer literal. -/
def int_of_string (s : String) : Except String Int :=
  match py_int s with
  | some n => Except.ok n
  | none => Except.error ("invalid literal for int() with base 10: " ++ s)

/-- Module load (bot.py lines 25-31) over the raw environment: check
`TELEGRAM_TOKEN` (Python `if not TOKEN` — absent or empty raises
`ValueError`), then convert `PORT` with `int(...)` (default 8443 when the
variable is absent), then read `WEBHOOK_URL`.  An `Except.error` is a
raised exception: the process does not start. -/
def load_config (telegram_token port_env webhook_url_env : Option String) :
    Except String Config :=
  match telegram_token with
  | none => Except.error "No TELEGRAM_TOKEN found in environment variables"
  | some tok =>
    if tok = "" then
      Except.error "No TELEGRAM_TOKEN found in environment variables"
    else
      match port_env with
      | none => Except.ok ⟨tok, 8443, webhook_url_env⟩
      | some p =>
        match int_of_string p with
        | Except.error e => Except.error e
        | Except.ok n => Except.ok ⟨tok, n, webhook_url_env⟩

/-- The run mode `main` selects (bot.py lines 94-106): either
`run_polling()`, or `run_webhook(listen, port, url_path, webhook_url)`. -/
inductive Mode where
  | run_polling
  | run_webhook (listen : String) (port : Int) (url_path : String)
      (webhook_url : String)
deriving DecidableEq

/-- Mode selection in `main` (bot.py lines 94-106): `if WEBHOOK_URL:` is
Python truthiness, so an absent or empty `WEBHOOK_URL` selects polling;
otherwise webhook mode on `0.0.0.0:PORT` with the token as URL path and
`f"{WEBHOOK_URL}/{TOKEN}"` as the registered callback URL. -/
def select_mode (cfg : Config) : Mode :=
  match cfg.WEBHOOK_URL with
  | some url =>
    if url = "" then Mode.run_polling
    else Mode.run_webhook "0.0.0.0" cfg.PORT cfg.TOKEN (url ++ "/" ++ cfg.TOKEN)
  | none => Mode.run_polling

/-- `main` (bot.py lines 79-106): registers the three handlers in order,
then selects the run mode.  (Named `main_fn` because Lean reserves `main`
for an executable entry point.) -/
def main_fn (cfg : Config) : List String × Mode :=
  (["start", "help", "left_chat_member"], select_mode cfg)

/-- The whole startup path: module load, then `main`.  An `Except.error`
means the process aborted before registering any handler. -/
def boot (telegram_token port_env webhook_url_env : Option String) :
    Except String (List String × Mode) :=
  (load_config telegram_token port_env webhook_url_env).map main_fn

/-- `sub` occurs as a contiguous substring of `s`. -/
def strContains (s sub : String) : Prop :=
  ∃ pre post : String, s = pre ++ sub ++ post

theorem string_append_assoc (a b c : String) :
    a ++ b ++ c = a ++ (b ++ c) :=
  congrArg String.mk (List.append_assoc a.data b.data c.data)

theorem string_append_empty (a : String) : a ++ "" = a :=
  congrArg String.mk (List.append_nil a.data)

/-- C3: for every update that lacks a left-chat-member field (no message at
all, or a message whose `left_chat_member` is absent), the departure handler
performs no outbound API call and writes no log entry: its trace is empty. -/
theorem C3_no_left_member_silent_noop (bot_id : Int) (now : String)
    (outcome : SendOutcome) (update : Update)
    (h : update.message = none ∨
      ∃ msg, update.message = some msg ∧ msg.left_chat_member = none) :
    handle_member_left bot_id now outcome update = [] := by
  rcases h with h | ⟨msg, hm, hl⟩
  · simp [handle_member_left, h]
  · simp [handle_member_left, hm, hl]

/-- Witness for C3 at a concrete update with no message. -/
theorem C3_no_left_member_silent_noop_witness :
    ((Update.mk none ⟨555, "Book Club"⟩).message = none ∨
      ∃ msg, (Update.mk none ⟨555, "Book Club"⟩).message = some msg ∧
        msg.left_chat_member = none) ∧
    handle_member_left 999 "2024-01-01" SendOutcome.success
      (Update.mk none ⟨555, "Book Club"⟩) = [] :=
  ⟨Or.inl rfl,
    C3_no_left_member_silent_noop 999 "2024-01-01" SendOutcome.success
      (Update.mk none ⟨555, "Book Club"⟩) (Or.inl rfl)⟩

/-- C4: for every update whose departing member's identifier equals the
bot's own identifier, the handler's trace is exactly one log entry (the
bot-removed record) and contains no send event. -/
theorem C4_bot_itself_removed (bot_id : Int) (now : String)
    (outcome : SendOutcome) (left_user : User) (chat : Chat)
    (h : left_user.id = bot_id) :
    handle_member_left bot_id now outcome
        (Update.mk (some ⟨some left_user⟩) chat) =
      [Event.log Level.info (bot_removed_log_text chat)] ∧
    ((handle_member_left bot_id now outcome
        (Update.mk (some ⟨some left_user⟩) chat)).filter Event.isLog).length
      = 1 ∧
    (handle_member_left bot_id now outcome
        (Update.mk (some ⟨some left_user⟩) chat)).filter Event.isSend = [] := by
  refine ⟨?_, ?_, ?_⟩ <;> simp [handle_member_left, h, Event.isLog, Event.isSend]

/-- Witness for C4: the bot (id 999) itself leaves chat 555. -/
theorem C4_bot_itself_removed_witness :
    (User.mk 999 "Bot" "Bot").id = (999 : Int) ∧
    (handle_member_left 999 "2024-01-01" SendOutcome.success
        (Update.mk (some ⟨some ⟨999, "Bot", "Bot"⟩⟩) ⟨555, "Book Club"⟩) =
      [Event.log Level.info (bot_removed_log_text ⟨555, "Book Club"⟩)] ∧
    ((handle_member_left 999 "2024-01-01" SendOutcome.success
        (Update.mk (some ⟨some ⟨999, "Bot", "Bot"⟩⟩) ⟨555, "Book Club"⟩)).filter
      Event.isLog).length = 1 ∧
    (handle_member_left 999 "2024-01-01" SendOutcome.success
        (Update.mk (some ⟨some ⟨999, "Bot", "Bot"⟩⟩) ⟨555, "Book Club"⟩)).filter
      Event.isSend = []) :=
  ⟨rfl, C4_bot_itself_removed 999 "2024-01-01" SendOutcome.success
    ⟨999, "Bot", "Bot"⟩ ⟨555, "Book Club"⟩ rfl⟩

/-- C6: every invocation of `/start` and every invocation of `/help` sends
exactly one reply to the chat the command came from, whose text is the fixed
constant `start_text` resp. `help_text`, independent of anything else in the
update. -/
theorem C6_fixed_command_replies (update : CommandUpdate) :
    start update = [Event.send update.chat_id start_text] ∧
    help_command update = [Event.send update.chat_id help_text] :=
  ⟨rfl, rfl⟩

/-- C1: for every update carrying a left-chat-member whose id differs from
the bot's id, the handler produces exactly one log entry before the send
attempt, and exactly one outbound send, addressed to the departing user,
whose farewell text contains the user's first name and the chat's title —
whatever the send outcome. -/
theorem C1_genuine_departure_log_then_send (bot_id : Int) (now : String)
    (outcome : SendOutcome) (left_user : User) (chat : Chat)
    (h : left_user.id ≠ bot_id) :
    (logsBeforeFirstSend (handle_member_left bot_id now outcome
        (Update.mk (some ⟨some left_user⟩) chat))).length = 1 ∧
    (handle_member_left bot_id now outcome
        (Update.mk (some ⟨some left_user⟩) chat)).filter Event.isSend =
      [Event.send left_user.id (farewell_text left_user chat)] ∧
    strContains (farewell_text left_user chat) left_user.first_name ∧
    strContains (farewell_text left_user chat) chat.title := by
  refine ⟨?_, ?_, ?_, ?_⟩
  · cases outcome <;>
      simp [handle_member_left, h, logsBeforeFirstSend, List.takeWhile,
        Event.isSend, Event.isLog]
  · cases outcome <;> simp [handle_member_left, h, Event.isSend]
  · exact ⟨"Hi ", ", we noticed you left " ++ chat.title ++ ". " ++
      "We hope you enjoyed your time in the group! " ++
      "If you have any feedback, please let us know.",
      by simp [farewell_text, string_append_assoc]⟩
  · exact ⟨"Hi " ++ left_user.first_name ++ ", we noticed you left ",
      ". " ++ "We hope you enjoyed your time in the group! " ++
      "If you have any feedback, please let us know.",
      by simp [farewell_text, string_append_assoc]⟩

/-- Witness for C1: Alice (id 42) leaves Book Club (id 555); bot id 999. -/
theorem C1_genuine_departure_log_then_send_witness :
    (User.mk 42 "Alice" "Alice").id ≠ (999 : Int) ∧
    ((logsBeforeFirstSend (handle_member_left 999 "2024-01-01"
        SendOutcome.success
        (Update.mk (some ⟨some ⟨42, "Alice", "Alice"⟩⟩)
          ⟨555, "Book Club"⟩))).length = 1 ∧
     (handle_member_left 999 "2024-01-01" SendOutcome.success
        (Update.mk (some ⟨some ⟨42, "Alice", "Alice"⟩⟩)
          ⟨555, "Book Club"⟩)).filter Event.isSend =
       [Event.send (User.mk 42 "Alice" "Alice").id
         (farewell_text ⟨42, "Alice", "Alice"⟩ ⟨555, "Book Club"⟩)] ∧
     strContains (farewell_text ⟨42, "Alice", "Alice"⟩ ⟨555, "Book Club"⟩)
       (User.mk 42 "Alice" "Alice").first_name ∧
     strContains (farewell_text ⟨42, "Alice", "Alice"⟩ ⟨555, "Book Club"⟩)
       (Chat.mk 555 "Book Club").title) :=
  ⟨by decide,
    C1_genuine_departure_log_then_send 999 "2024-01-01" SendOutcome.success
      ⟨42, "Alice", "Alice"⟩ ⟨555, "Book Club"⟩ (by decide)⟩

/-- C5: on a genuine departure the first event of the trace, before the
send, is the info-level departure log, whose text contains the user's
display name and id, the chat's title and id, and the timestamp. -/
theorem C5_departure_log_contents (bot_id : Int) (now : String)
    (outcome : SendOutcome) (left_user : User) (chat : Chat)
    (h : left_user.id ≠ bot_id) :
    (handle_member_left bot_id now outcome
        (Update.mk (some ⟨some left_user⟩) chat)).head? =
      some (Event.log Level.info (departure_log_text left_user chat now)) ∧
    strContains (departure_log_text left_user chat now) left_user.full_name ∧
    strContains (departure_log_text left_user chat now)
      (toString left_user.id) ∧
    strContains (departure_log_text left_user chat now) chat.title ∧
    strContains (departure_log_text left_user chat now) (toString chat.id) ∧
    strContains (departure_log_text left_user chat now) now := by
  refine ⟨?_, ?_, ?_, ?_, ?_, ?_⟩
  · cases outcome <;> simp [handle_member_left, h]
  · exact ⟨"User ", " (ID: " ++ toString left_user.id ++ ") left " ++
      "group " ++ chat.title ++ " (ID: " ++ toString chat.id ++ ") at " ++
      now, by simp [departure_log_text, string_append_assoc]⟩
  · exact ⟨"User " ++ left_user.full_name ++ " (ID: ",
      ") left " ++ "group " ++ chat.title ++ " (ID: " ++ toString chat.id ++
      ") at " ++ now, by simp [departure_log_text, string_append_assoc]⟩
  · exact ⟨"User " ++ left_user.full_name ++ " (ID: " ++
      toString left_user.id ++ ") left " ++ "group ",
      " (ID: " ++ toString chat.id ++ ") at " ++ now,
      by simp [departure_log_text, string_append_assoc]⟩
  · exact ⟨"User " ++ left_user.full_name ++ " (ID: " ++
      toString left_user.id ++ ") left " ++ "group " ++ chat.title ++
      " (ID: ", ") at " ++ now,
      by simp [departure_log_text, string_append_assoc]⟩
  · exact ⟨"User " ++ left_user.full_name ++ " (ID: " ++
      toString left_user.id ++ ") left " ++ "group " ++ chat.title ++
      " (ID: " ++ toString chat.id ++ ") at ", "",
      by simp [departure_log_text, string_append_assoc, string_append_empty]⟩

/-- Witness for C5: Alice (id 42) leaves Book Club (id 555); bot id 999. -/
theorem C5_departure_log_contents_witness :
    (User.mk 42 "Alice" "Alice").id ≠ (999 : Int) ∧
    ((handle_member_left 999 "2024-01-01" SendOutcome.success
        (Update.mk (some ⟨some ⟨42, "Alice", "Alice"⟩⟩)
          ⟨555, "Book Club"⟩)).head? =
      some (Event.log Level.info
        (departure_log_text ⟨42, "Alice", "Alice"⟩ ⟨555, "Book Club"⟩
          "2024-01-01")) ∧
     strContains (departure_log_text ⟨42, "Alice", "Alice"⟩
        ⟨555, "Book Club"⟩ "2024-01-01") (User.mk 42 "Alice" "Alice").full_name ∧
     strContains (departure_log_text ⟨42, "Alice", "Alice"⟩
        ⟨555, "Book Club"⟩ "2024-01-01") (toString (User.mk 42 "Alice" "Alice").id) ∧
     strContains (departure_log_text ⟨42, "Alice", "Alice"⟩
        ⟨555, "Book Club"⟩ "2024-01-01") (Chat.mk 555 "Book Club").title ∧
     strContains (departure_log_text ⟨42, "Alice", "Alice"⟩
        ⟨555, "Book Club"⟩ "2024-01-01") (toString (Chat.mk 555 "Book Club").id) ∧
     strContains (departure_log_text ⟨42, "Alice", "Alice"⟩
        ⟨555, "Book Club"⟩ "2024-01-01") "2024-01-01") :=
  ⟨by decide,
    C5_departure_log_contents 999 "2024-01-01" SendOutcome.success
      ⟨42, "Alice", "Alice"⟩ ⟨555, "Book Club"⟩ (by decide)⟩

/-- C9: on a genuine departure whose send succeeds, the handler emits a
second info-level log entry after the send — the success confirmation with
the user's full name and id — so the successful path has exactly two log
entries. -/
theorem C9_success_confirmation_log (bot_id : Int) (now : String)
    (left_user : User) (chat : Chat) (h : left_user.id ≠ bot_id) :
    handle_member_left bot_id now SendOutcome.success
        (Update.mk (some ⟨some left_user⟩) chat) =
      [Event.log Level.info (departure_log_text left_user chat now),
       Event.send left_user.id (farewell_text left_user chat),
       Event.log Level.info (sent_log_text left_user)] ∧
    ((handle_member_left bot_id now SendOutcome.success
        (Update.mk (some ⟨some left_user⟩) chat)).filter Event.isLog).length
      = 2 ∧
    strContains (sent_log_text left_user) left_user.full_name ∧
    strContains (sent_log_text left_user) (toString left_user.id) := by
  refine ⟨?_, ?_, ?_, ?_⟩
  · simp [handle_member_left, h]
  · simp [handle_member_left, h, Event.isLog]
  · exact ⟨"Sent farewell message to ", " (" ++ toString left_user.id ++ ")",
      by simp [sent_log_text, string_append_assoc]⟩
  · exact ⟨"Sent farewell message to " ++ left_user.full_name ++ " (", ")",
      by simp [sent_log_text, string_append_assoc]⟩

/-- Witness for C9: Alice (id 42) leaves Book Club and the send succeeds. -/
theorem C9_success_confirmation_log_witness :
    (User.mk 42 "Alice" "Alice").id ≠ (999 : Int) ∧
    (handle_member_left 999 "2024-01-01" SendOutcome.success
        (Update.mk (some ⟨some ⟨42, "Alice", "Alice"⟩⟩) ⟨555, "Book Club"⟩) =
      [Event.log Level.info (departure_log_text ⟨42, "Alice", "Alice"⟩
          ⟨555, "Book Club"⟩ "2024-01-01"),
       Event.send (User.mk 42 "Alice" "Alice").id
         (farewell_text ⟨42, "Alice", "Alice"⟩ ⟨555, "Book Club"⟩),
       Event.log Level.info (sent_log_text ⟨42, "Alice", "Alice"⟩)] ∧
     ((handle_member_left 999 "2024-01-01" SendOutcome.success
        (Update.mk (some ⟨some ⟨42, "Alice", "Alice"⟩⟩)
          ⟨555, "Book Club"⟩)).filter Event.isLog).length = 2 ∧
     strContains (sent_log_text ⟨42, "Alice", "Alice"⟩)
       (User.mk 42 "Alice" "Alice").full_name ∧
     strContains (sent_log_text ⟨42, "Alice", "Alice"⟩)
       (toString (User.mk 42 "Alice" "Alice").id)) :=
  ⟨by decide,
    C9_success_confirmation_log 999 "2024-01-01" ⟨42, "Alice", "Alice"⟩
      ⟨555, "Book Club"⟩ (by decide)⟩

/-- C2: on a genuine departure whose send raises `e`, the handler's trace
holds exactly one error-level log entry, containing the user's name and the
failure detail; the send is attempted exactly once (no retry); and every
send in the trace targets the departing user's private chat, never the
group.  The handler is a total function — `except Exception` means no
exception escapes. -/
theorem C2_send_failure_logged_and_swallowed (bot_id : Int) (now e : String)
    (left_user : User) (chat : Chat) (h : left_user.id ≠ bot_id) :
    (handle_member_left bot_id now (SendOutcome.failure e)
        (Update.mk (some ⟨some left_user⟩) chat)).filter
      (Event.isLogAt Level.error) =
      [Event.log Level.error (send_error_log_text left_user e)] ∧
    ((handle_member_left bot_id now (SendOutcome.failure e)
        (Update.mk (some ⟨some left_user⟩) chat)).filter Event.isSend).length
      = 1 ∧
    (∀ c t, Event.send c t ∈ handle_member_left bot_id now
        (SendOutcome.failure e) (Update.mk (some ⟨some left_user⟩) chat) →
      c = left_user.id) ∧
    strContains (send_error_log_text left_user e) left_user.full_name ∧
    strContains (send_error_log_text left_user e) e := by
  refine ⟨?_, ?_, ?_, ?_, ?_⟩
  · simp [handle_member_left, h, Event.isLogAt]
  · simp [handle_member_left, h, Event.isSend]
  · intro c t hmem
    simp [handle_member_left, h] at hmem
    exact hmem.1
  · exact ⟨"Could not send message to ", ": " ++ e,
      by simp [send_error_log_text, string_append_assoc]⟩
  · exact ⟨"Could not send message to " ++ left_user.full_name ++ ": ", "",
      by simp [send_error_log_text, string_append_assoc, string_append_empty]⟩

/-- Witness for C2: sending to Alice fails with "Forbidden: bot was blocked
by the user". -/
theorem C2_send_failure_logged_and_swallowed_witness :
    (User.mk 42 "Alice" "Alice").id ≠ (999 : Int) ∧
    ((handle_member_left 999 "2024-01-01"
        (SendOutcome.failure "Forbidden: bot was blocked by the user")
        (Update.mk (some ⟨some ⟨42, "Alice", "Alice"⟩⟩)
          ⟨555, "Book Club"⟩)).filter (Event.isLogAt Level.error) =
      [Event.log Level.error (send_error_log_text ⟨42, "Alice", "Alice"⟩
        "Forbidden: bot was blocked by the user")] ∧
     ((handle_member_left 999 "2024-01-01"
        (SendOutcome.failure "Forbidden: bot was blocked by the user")
        (Update.mk (some ⟨some ⟨42, "Alice", "Alice"⟩⟩)
          ⟨555, "Book Club"⟩)).filter Event.isSend).length = 1 ∧
     (∀ c t, Event.send c t ∈ handle_member_left 999 "2024-01-01"
        (SendOutcome.failure "Forbidden: bot was blocked by the user")
        (Update.mk (some ⟨some ⟨42, "Alice", "Alice"⟩⟩) ⟨555, "Book Club"⟩) →
       c = (User.mk 42 "Alice" "Alice").id) ∧
     strContains (send_error_log_text ⟨42, "Alice", "Alice"⟩
       "Forbidden: bot was blocked by the user")
       (User.mk 42 "Alice" "Alice").full_name ∧
     strContains (send_error_log_text ⟨42, "Alice", "Alice"⟩
       "Forbidden: bot was blocked by the user")
       "Forbidden: bot was blocked by the user") :=
  ⟨by decide,
    C2_send_failure_logged_and_swallowed 999 "2024-01-01"
      "Forbidden: bot was blocked by the user" ⟨42, "Alice", "Alice"⟩
      ⟨555, "Book Club"⟩ (by decide)⟩

/-- C7 counterexample: `WEBHOOK_URL` set to the empty string is present in
the environment (`≠ none`), yet startup selects poll mode, because
`if WEBHOOK_URL:` is Python truthiness, not presence. -/
theorem C7_counterexample_empty_webhook_url :
    (some "" : Option String) ≠ none ∧
    boot (some "TOKEN") none (some "") =
      Except.ok (["start", "help", "left_chat_member"], Mode.run_polling) :=
  ⟨by decide, rfl⟩

/-- C7 (amended): mode selection is a pure function of the truthiness of
`WEBHOOK_URL` — absent or empty selects poll mode; non-empty selects
webhook mode on `0.0.0.0` and the configured port (8443 when `PORT` is
absent) with the token as URL path and `WEBHOOK_URL/TOKEN` as callback. -/
theorem C7_mode_selection (tok url ps : String) (n : Int) (htok : tok ≠ "")
    (hurl : url ≠ "") (hps : py_int ps = some n) :
    boot (some tok) none none =
      Except.ok (["start", "help", "left_chat_member"], Mode.run_polling) ∧
    boot (some tok) none (some "") =
      Except.ok (["start", "help", "left_chat_member"], Mode.run_polling) ∧
    boot (some tok) none (some url) =
      Except.ok (["start", "help", "left_chat_member"],
        Mode.run_webhook "0.0.0.0" 8443 tok (url ++ "/" ++ tok)) ∧
    boot (some tok) (some ps) (some url) =
      Except.ok (["start", "help", "left_chat_member"],
        Mode.run_webhook "0.0.0.0" n tok (url ++ "/" ++ tok)) := by
  refine ⟨?_, ?_, ?_, ?_⟩ <;>
    simp [boot, load_config, int_of_string, Except.map, main_fn, select_mode,
      htok, hurl, hps]

/-- Witness for C7 (amended) at token "TOKEN", url "https://example.com",
port "9000". -/
theorem C7_mode_selection_witness :
    ("TOKEN" : String) ≠ "" ∧ ("https://example.com" : String) ≠ "" ∧
    py_int "9000" = some 9000 ∧
    (boot (some "TOKEN") none none =
      Except.ok (["start", "help", "left_chat_member"], Mode.run_polling) ∧
    boot (some "TOKEN") none (some "") =
      Except.ok (["start", "help", "left_chat_member"], Mode.run_polling) ∧
    boot (some "TOKEN") none (some "https://example.com") =
      Except.ok (["start", "help", "left_chat_member"],
        Mode.run_webhook "0.0.0.0" 8443 "TOKEN"
          ("https://example.com" ++ "/" ++ "TOKEN")) ∧
    boot (some "TOKEN") (some "9000") (some "https://example.com") =
      Except.ok (["start", "help", "left_chat_member"],
        Mode.run_webhook "0.0.0.0" 9000 "TOKEN"
          ("https://example.com" ++ "/" ++ "TOKEN"))) :=
  ⟨by decide, by decide, by decide,
    C7_mode_selection "TOKEN" "https://example.com" "9000" 9000 (by decide)
      (by decide) (by rfl)⟩

/-- C10: `PORT` is converted with `int(...)` at module load, before mode
selection, so a non-numeric `PORT` aborts startup with the `ValueError`
even when `WEBHOOK_URL` is absent and the port would never be used. -/
theorem C10_port_converted_at_module_load (tok p : String)
    (webhook_url_env : Option String) (htok : tok ≠ "")
    (hp : py_int p = none) :
    boot (some tok) (some p) webhook_url_env =
      Except.error ("invalid literal for int() with base 10: " ++ p) := by
  simp [boot, load_config, int_of_string, Except.map, htok, hp]

/-- Witness for C10: `PORT=abc` with no `WEBHOOK_URL` configured. -/
theorem C10_port_converted_at_module_load_witness :
    ("TOKEN" : String) ≠ "" ∧ py_int "abc" = none ∧
    boot (some "TOKEN") (some "abc") none =
      Except.error ("invalid literal for int() with base 10: " ++ "abc") :=
  ⟨by decide, by decide,
    C10_port_converted_at_module_load "TOKEN" "abc" none (by decide)
      (by decide)⟩

/-- C8: when `TELEGRAM_TOKEN` is absent from the environment, startup
aborts with the `ValueError` before registering any handler or selecting a
mode, whatever the other environment variables hold. -/
theorem C8_missing_token_fatal (port_env webhook_url_env : Option String) :
    boot none port_env webhook_url_env =
      Except.error "No TELEGRAM_TOKEN found in environment variables" :=
  rfl
